import Mathlib

/-!
Shallow embedding of the consumer-segmentation analytics pipeline
(`src/analytics_engine.py`, class `AnalyticsEngine`) and proofs about it.

Modelling conventions:
- Python floats are modelled as rationals (`ℚ`); `round(x, n)` is modelled by
  `pyRound n`, `int(x)` by `pyInt` (truncation toward zero).
- The process-wide numpy random generator (`np.random`) is modelled as a state
  `RandState` carrying a raw value stream, a position, and an event log.
  `np.random.seed(k)` replaces the stream by `seedFn k` and resets the
  position; every distribution sample consumes one raw stream value and maps
  it through an abstract transform held in the environment `PyEnv`
  (numpy's actual Mersenne-Twister stream and its distribution transforms are
  library internals, so theorems quantify over them).
- `sklearn.cluster.KMeans` is modelled by an abstract label/center pair in
  `PyEnv`, together with the library's documented input check: `fit` raises
  `ValueError` (naming `n_samples` and `n_clusters`) when there are fewer
  samples than clusters.
- `sklearn.preprocessing.StandardScaler` divides each column by its standard
  deviation, except that a zero-variance column gets scale 1 (the library's
  `_handle_zeros_in_scale` behaviour); `np.sqrt` is an abstract `sqrtFn`.
- `datetime.now().isoformat()` is an explicit `String` input.
- pandas tables are lists of structures, one structure per row.
-/

namespace UrbanPulse

/-- An observable event on the process-wide random generator: a reseed with a
given seed value, or the consumption of one raw sample. -/
inductive RngEvent where
  | seed (k : ℕ)
  | draw
deriving DecidableEq, Repr, Inhabited

/-- State of the process-wide `np.random` generator: the raw value stream
determined by the last seed, the current position in it, and the log of
observable events so far. -/
structure RandState where
  stream : ℕ → ℚ
  pos : ℕ
  log : List RngEvent

/-- Environment of library behaviour the Python code depends on: the numpy
seed-to-stream map, the distribution transforms (one raw stream value in, one
sample out), `np.sqrt`, the KMeans assignment and centers, and the number
formatting used inside f-strings. -/
structure PyEnv where
  seedFn : ℕ → ℕ → ℚ
  stdNormalT : ℚ → ℚ
  betaT : ℚ → ℚ → ℚ → ℚ
  gammaT : ℚ → ℚ → ℚ
  expT : ℚ → ℚ
  uniT : ℚ → ℚ
  uniT_nonneg : ∀ u, 0 ≤ uniT u
  uniT_le_one : ∀ u, uniT u ≤ 1
  sqrtFn : ℚ → ℚ
  kmLabels : List (List ℚ) → List ℕ
  kmCenters : List (List ℚ) → List (List ℚ)
  fmtMoney : ℚ → String

/-- Model of `np.random.seed(k)`: the stream is replaced by the one the seed
determines and the position resets; the event is logged. -/
def npSeed (env : PyEnv) (k : ℕ) (r : RandState) : RandState :=
  { stream := env.seedFn k, pos := 0, log := r.log ++ [RngEvent.seed k] }

/-- Consume one raw value from the generator stream. -/
def RandState.next (r : RandState) : ℚ × RandState :=
  (r.stream r.pos, { r with pos := r.pos + 1, log := r.log ++ [RngEvent.draw] })

/-- Model of `np.random.normal(mu, sigma)`. -/
def npNormal (env : PyEnv) (mu sigma : ℚ) (r : RandState) : ℚ × RandState :=
  let (u, r') := r.next
  (mu + sigma * env.stdNormalT u, r')

/-- Model of `np.random.beta(a, b)`. -/
def npBeta (env : PyEnv) (a b : ℚ) (r : RandState) : ℚ × RandState :=
  let (u, r') := r.next
  (env.betaT a b u, r')

/-- Model of `np.random.gamma(shape, scale)`; numpy scales a standard gamma
sample by `scale`. -/
def npGamma (env : PyEnv) (shape scale : ℚ) (r : RandState) : ℚ × RandState :=
  let (u, r') := r.next
  (scale * env.gammaT shape u, r')

/-- Model of `np.random.exponential(scale)`. -/
def npExponential (env : PyEnv) (scale : ℚ) (r : RandState) : ℚ × RandState :=
  let (u, r') := r.next
  (scale * env.expT u, r')

/-- Model of `np.random.uniform(lo, hi)`: `lo + (hi - lo) * u` with `u` in
`[0, 1]`. -/
def npUniform (env : PyEnv) (lo hi : ℚ) (r : RandState) : ℚ × RandState :=
  let (u, r') := r.next
  (lo + (hi - lo) * env.uniT u, r')

/-- The observable part of a generator state that determines future sample
values: the stream and the position (everything except the event log). -/
def RandState.core (r : RandState) : (ℕ → ℚ) × ℕ :=
  (r.stream, r.pos)

/-- A Python `for` loop that appends one record per element while threading
the process-wide generator state. -/
def threadMap {γ α : Type} (f : γ → RandState → α × RandState) (l : List γ)
    (r : RandState) : List α × RandState :=
  l.foldl (fun acc c => (acc.1 ++ [(f c acc.2).1], (f c acc.2).2)) ([], r)

/-- A Python `for` loop that appends a block of records per element while
threading the process-wide generator state. -/
def threadFlatMap {γ α : Type} (f : γ → RandState → List α × RandState)
    (l : List γ) (r : RandState) : List α × RandState :=
  l.foldl (fun acc c => (acc.1 ++ (f c acc.2).1, (f c acc.2).2)) ([], r)

/-- Model of Python `round(x, n)` on the rationals: round to `n` decimal
places (ties differ between Python's banker rounding and `round`, but no
value in this development sits on a tie). -/
def pyRound (n : ℕ) (q : ℚ) : ℚ :=
  ((round (q * 10 ^ n) : ℤ) : ℚ) / 10 ^ n

/-- Model of Python `int(x)`: truncation toward zero. -/
def pyInt (q : ℚ) : ℤ :=
  q.num / (q.den : ℤ)

/-- Model of Python `max` over a nonempty list (`max(...)` of a generator). -/
def pyMax (l : List ℤ) : ℤ :=
  match l with
  | [] => 0
  | x :: xs => xs.foldl max x

/-- Mean of a list of rationals, as `pandas.Series.mean` / `np.mean` compute
it (sum divided by length; the empty case does not arise in the proofs that
need a numeric value). -/
def pdMean (l : List ℚ) : ℚ :=
  l.sum / (l.length : ℚ)

/-- One row of the mobility table built by `_generate_mobility_data`. -/
structure MobilityRow where
  county_fips : String
  county_name : String
  total_trips : ℤ
  avg_trip_duration_minutes : ℚ
  member_trips : ℤ
  casual_trips : ℤ
  member_ratio : ℚ
  peak_hour_ratio : ℚ
  weekend_ratio : ℚ
  night_trips_ratio : ℚ
  avg_trip_distance_km : ℚ
  station_density : ℚ
  inter_county_ratio : ℚ
deriving DecidableEq, Repr, Inhabited

/-- The fixed county list shared by all three generators. -/
def countiesList : List String :=
  ["17031", "36061", "06037", "48201", "04013", "53033", "25025"]

/-- The county display names (`county_names` dict). -/
def countyName (county : String) : String :=
  if county = "17031" then "Cook County, IL (Chicago)"
  else if county = "36061" then "New York County, NY (Manhattan)"
  else if county = "06037" then "Los Angeles County, CA"
  else if county = "48201" then "Harris County, TX (Houston)"
  else if county = "04013" then "Maricopa County, AZ (Phoenix)"
  else if county = "53033" then "King County, WA (Seattle)"
  else "Suffolk County, MA (Boston)"

/-- Loop body of `_generate_mobility_data`: sample the per-county metrics,
clamp them to the documented bounds, and build the row. -/
def mobilityRowFor (env : PyEnv) (county : String) (r : RandState) :
    MobilityRow × RandState :=
  let (base_trips, r) :=
    if county = "36061" then npNormal env 25000 3000 r
    else if county = "17031" then npNormal env 18000 2500 r
    else if county = "06037" then npNormal env 12000 2000 r
    else npNormal env 8000 1500 r
  let (avg_duration, r) :=
    if county = "36061" then npNormal env 12 2 r
    else if county = "17031" then npNormal env 15 3 r
    else if county = "06037" then npNormal env 20 4 r
    else npNormal env 16 3 r
  let (member_ratio, r) :=
    if county = "36061" then npNormal env (85/100) (5/100) r
    else if county = "17031" then npNormal env (75/100) (8/100) r
    else if county = "06037" then npNormal env (65/100) (1/10) r
    else npNormal env (7/10) (1/10) r
  let base_trips := max 1000 base_trips
  let avg_duration := max 5 (min 30 avg_duration)
  let member_ratio := max (3/10) (min (95/100) member_ratio)
  let (peak, r) := npBeta env 2 3 r
  let (weekend, r) := npBeta env (3/2) 3 r
  let (night, r) := npBeta env 1 4 r
  let (dist, r) := npGamma env 2 (3/2) r
  let (station, r) := npExponential env (1/2) r
  let (inter, r) := npBeta env 1 9 r
  ({ county_fips := county
     county_name := countyName county
     total_trips := pyInt base_trips
     avg_trip_duration_minutes := pyRound 1 avg_duration
     member_trips := pyInt (base_trips * member_ratio)
     casual_trips := pyInt (base_trips * (1 - member_ratio))
     member_ratio := pyRound 3 member_ratio
     peak_hour_ratio := peak * (4/10) + 15/100
     weekend_ratio := weekend * (4/10) + 15/100
     night_trips_ratio := night * (15/100)
     avg_trip_distance_km := dist + 1
     station_density := station + 1/10
     inter_county_ratio := inter * (2/10) }, r)

/-- `_generate_mobility_data`: seed the generator with 42, then build one row
per county in order. -/
def generate_mobility_data (env : PyEnv) (s : RandState) :
    List MobilityRow × RandState :=
  threadMap (mobilityRowFor env) countiesList (npSeed env 42 s)

/-- One row of the spending table built by `_generate_spending_data`. -/
structure SpendingRow where
  county_fips : String
  category : String
  spending_amount : ℚ
  spending_proportion : ℚ
deriving DecidableEq, Repr, Inhabited

/-- The six spending categories. -/
def categoriesList : List String :=
  ["restaurants", "retail", "grocery", "entertainment", "transportation", "healthcare"]

/-- The `base_multiplier` if/elif chain of `_generate_spending_data`. -/
def baseMultiplier (county : String) : ℚ :=
  if county = "36061" then 9/5
  else if county = "53033" then 8/5
  else if county = "25025" then 3/2
  else if county = "06037" then 7/5
  else if county = "17031" then 6/5
  else 1

/-- Category-specific sampling of `base_amount` in `_generate_spending_data`
(the gamma draw before the multiplier is applied). -/
def categoryBaseAmount (env : PyEnv) (county category : String) (r : RandState) :
    ℚ × RandState :=
  if category = "restaurants" then npGamma env 3 50000 r
  else if category = "retail" then npGamma env (5/2) 60000 r
  else if category = "entertainment" ∧ county = "06037" then npGamma env 4 40000 r
  else if category = "transportation" then npGamma env 2 30000 r
  else npGamma env 2 40000 r

/-- Inner category loop of `_generate_spending_data`: sample and clamp each
category amount (`max(10000, base_amount)`), accumulating the running total. -/
def countyCategoryAmounts (env : PyEnv) (county : String) (r : RandState) :
    List (String × ℚ) × RandState :=
  categoriesList.foldl
    (fun acc category =>
      (acc.1 ++ [(category,
          max 10000 ((categoryBaseAmount env county category acc.2).1 * baseMultiplier county))],
        (categoryBaseAmount env county category acc.2).2))
    ([], r)

/-- Per-county body of `_generate_spending_data`: the six category rows with
proportions of the total, then the synthesized total row. -/
def countySpendingRows (env : PyEnv) (county : String) (r : RandState) :
    List SpendingRow × RandState :=
  let amounts := (countyCategoryAmounts env county r).1
  let total := (amounts.map (fun p => p.2)).sum
  let catRows := amounts.map (fun p =>
    { county_fips := county
      category := p.1
      spending_amount := pyRound 0 p.2
      spending_proportion := pyRound 3 (p.2 / total) : SpendingRow })
  (catRows ++
    [{ county_fips := county
       category := "total"
       spending_amount := pyRound 0 total
       spending_proportion := 1 }], (countyCategoryAmounts env county r).2)

/-- `_generate_spending_data`: seed the generator with 42, then build the per
county category rows plus the total row, county by county. -/
def generate_spending_data (env : PyEnv) (s : RandState) :
    List SpendingRow × RandState :=
  threadFlatMap (countySpendingRows env) countiesList (npSeed env 42 s)

/-- One row of the demographic table built by `_generate_demographic_data`. -/
structure DemographicRow where
  county_fips : String
  population : ℤ
  median_income : ℚ
  college_educated_pct : ℚ
  age_18_34_pct : ℚ
  age_35_54_pct : ℚ
  age_55_plus_pct : ℚ
  population_density : ℚ
deriving DecidableEq, Repr, Inhabited

/-- The static `county_demographics` dict: population, median income and
college fraction per county. -/
def countyDemographics (county : String) : ℤ × ℚ × ℚ :=
  if county = "17031" then (5150000, 65000, 45/100)
  else if county = "36061" then (1690000, 85000, 65/100)
  else if county = "06037" then (9830000, 70000, 35/100)
  else if county = "48201" then (4710000, 55000, 35/100)
  else if county = "04013" then (4420000, 60000, 3/10)
  else if county = "53033" then (2270000, 95000, 6/10)
  else (800000, 80000, 55/100)

/-- Loop body of `_generate_demographic_data`. -/
def demographicRowFor (env : PyEnv) (county : String) (r : RandState) :
    DemographicRow × RandState :=
  let demo := countyDemographics county
  let (incomeNoise, r) := npNormal env 0 5000 r
  let (collegeNoise, r) := npNormal env 0 (5/100) r
  let (age1, r) := npBeta env 3 4 r
  let (age2, r) := npBeta env 4 3 r
  let (age3, r) := npBeta env 2 5 r
  let (densityNoise, r) := npExponential env 500 r
  ({ county_fips := county
     population := demo.1
     median_income := demo.2.1 + incomeNoise
     college_educated_pct := demo.2.2 + collegeNoise
     age_18_34_pct := age1 * (4/10) + 2/10
     age_35_54_pct := age2 * (4/10) + 25/100
     age_55_plus_pct := age3 * (35/100) + 15/100
     population_density := (demo.1 : ℚ) / (1000 + densityNoise) }, r)

/-- `_generate_demographic_data`: seed the generator with 42, then build one
row per county in the insertion order of the demographics dict. -/
def generate_demographic_data (env : PyEnv) (s : RandState) :
    List DemographicRow × RandState :=
  threadMap (demographicRowFor env) countiesList (npSeed env 42 s)

/-- Errors a run can raise. The code itself raises none of these directly:
`valueError` is what `sklearn.cluster.KMeans.fit` raises when there are fewer
samples than clusters (its message names both counts), and `keyError` is what
selecting an absent column from the merged DataFrame raises. A
`configurationError` constructor is included because the specification's
error taxonomy names it; no code path produces it. -/
inductive AnalyticsError where
  | valueError (nSamples nClusters : ℕ)
  | keyError (column : String)
  | configurationError (minRequired : ℕ)
deriving DecidableEq, Repr, Inhabited

/-- Whether an error is the specification's `ConfigurationError`. -/
def AnalyticsError.isConfigurationError : AnalyticsError → Bool
  | .configurationError _ => true
  | _ => false

/-- Value of the pivoted spending table at `(county, category)` after
`fillna(0)`: the county's `spending_amount` for that category, or 0 when the
county has no row for the category. -/
def pivotValue (spending : List SpendingRow) (county category : String) : ℚ :=
  match spending.find? (fun r => r.county_fips = county ∧ r.category = category) with
  | some row => row.spending_amount
  | none => 0

/-- One row of `combined_data`: the merge of a mobility row with the pivoted
spending columns the pipeline reads (`restaurants`, `retail`,
`entertainment`). -/
structure CombinedRow where
  mob : MobilityRow
  restaurants : ℚ
  retail : ℚ
  entertainment : ℚ
deriving DecidableEq, Repr, Inhabited

/-- `combined_data`: inner join of the mobility table with the pivoted
spending table on `county_fips` — a mobility row survives exactly when the
spending table has at least one row for its county. -/
def combinedRows (mobility : List MobilityRow) (spending : List SpendingRow) :
    List CombinedRow :=
  mobility.filterMap (fun m =>
    if (spending.map (fun r => r.county_fips)).contains m.county_fips then
      some { mob := m
             restaurants := pivotValue spending m.county_fips "restaurants"
             retail := pivotValue spending m.county_fips "retail"
             entertainment := pivotValue spending m.county_fips "entertainment" }
    else none)

/-- The fixed `features` column list of `_perform_segmentation_analysis`. -/
def featureNames : List String :=
  ["total_trips", "member_ratio", "avg_trip_duration_minutes",
   "restaurants", "retail", "entertainment"]

/-- The feature row of one combined row, in the order of `featureNames`. -/
def featureVector (cr : CombinedRow) : List ℚ :=
  [(cr.mob.total_trips : ℚ), cr.mob.member_ratio,
   cr.mob.avg_trip_duration_minutes, cr.restaurants, cr.retail,
   cr.entertainment]

/-- Column mean used by `StandardScaler`. -/
def colMean (col : List ℚ) : ℚ :=
  col.sum / (col.length : ℚ)

/-- Column (population) variance used by `StandardScaler`. -/
def colVar (col : List ℚ) : ℚ :=
  ((col.map (fun x => (x - colMean col) ^ 2)).sum) / (col.length : ℚ)

/-- `StandardScaler` on one entry of column `col`: subtract the column mean
and divide by the column standard deviation, except that a zero-variance
column keeps scale 1 (sklearn's handling of zeros in the scale), so the entry
becomes `x - mean`. -/
def scaleEntry (sqrtFn : ℚ → ℚ) (col : List ℚ) (x : ℚ) : ℚ :=
  if colVar col = 0 then x - colMean col
  else (x - colMean col) / sqrtFn (colVar col)

/-- `StandardScaler` applied to one full column. -/
def standardScaleColumn (sqrtFn : ℚ → ℚ) (col : List ℚ) : List ℚ :=
  col.map (scaleEntry sqrtFn col)

/-- Column `j` of a row-major matrix. -/
def matrixColumn (m : List (List ℚ)) (j : ℕ) : List ℚ :=
  m.map (fun row => row.getD j 0)

/-- `StandardScaler.fit_transform` on the row-major feature matrix: every
entry is scaled against its own column. -/
def scaledMatrix (sqrtFn : ℚ → ℚ) (m : List (List ℚ)) : List (List ℚ) :=
  m.map (fun row => row.mapIdx (fun j x => scaleEntry sqrtFn (matrixColumn m j) x))

/-- Qualitative characterization of a cluster (`_characterize_cluster`). -/
structure Characteristics where
  mobility_level : String
  engagement : String
  dining_preference : String
deriving DecidableEq, Repr, Inhabited

/-- `_characterize_cluster`: threshold the cluster means of trips, member
ratio and restaurant spending into low / medium / high. -/
def characterize_cluster (cluster_data : List CombinedRow) : Characteristics :=
  let avg_trips := pdMean (cluster_data.map (fun c => (c.mob.total_trips : ℚ)))
  let avg_member_ratio := pdMean (cluster_data.map (fun c => c.mob.member_ratio))
  let restaurant_spending := pdMean (cluster_data.map (fun c => c.restaurants))
  { mobility_level :=
      if avg_trips > 15000 then "high"
      else if avg_trips > 8000 then "medium" else "low"
    engagement :=
      if avg_member_ratio > 8/10 then "high"
      else if avg_member_ratio > 6/10 then "medium" else "low"
    dining_preference :=
      if restaurant_spending > 150000 then "high"
      else if restaurant_spending > 80000 then "medium" else "low" }

/-- One entry of `cluster_profiles`. -/
structure ClusterProfile where
  cluster_id : ℕ
  size : ℕ
  counties : List String
  avg_trips : ℚ
  avg_member_ratio : ℚ
  avg_duration : ℚ
  avg_restaurant_spending : ℚ
  characteristics : Characteristics
deriving DecidableEq, Repr, Inhabited

/-- Rows of `combined_data` assigned to a given cluster label (the
`combined_data['cluster'] == cluster_id` selection). -/
def clusterRows (combined : List CombinedRow) (labels : List ℕ) (cid : ℕ) :
    List CombinedRow :=
  ((combined.zip labels).filter (fun p => p.2 = cid)).map (fun p => p.1)

/-- The profile computed for one cluster id. -/
def profileFor (combined : List CombinedRow) (labels : List ℕ) (cid : ℕ) :
    ClusterProfile :=
  let cluster_data := clusterRows combined labels cid
  { cluster_id := cid
    size := cluster_data.length
    counties := cluster_data.map (fun c => c.mob.county_fips)
    avg_trips := pdMean (cluster_data.map (fun c => (c.mob.total_trips : ℚ)))
    avg_member_ratio := pdMean (cluster_data.map (fun c => c.mob.member_ratio))
    avg_duration := pdMean (cluster_data.map (fun c => c.mob.avg_trip_duration_minutes))
    avg_restaurant_spending := pdMean (cluster_data.map (fun c => c.restaurants))
    characteristics := characterize_cluster cluster_data }

/-- The structure returned by `_perform_segmentation_analysis`. -/
structure SegmentationResult where
  cluster_profiles : List ClusterProfile
  feature_importance : List (String × ℚ)
  silhouette_score : ℚ
  n_clusters : ℕ
  algorithm : String
deriving DecidableEq, Repr, Inhabited

/-- Mean absolute centroid weight per feature
(`np.abs(kmeans.cluster_centers_).mean(axis=0)`). -/
def featureImportance (centers : List (List ℚ)) : List (String × ℚ) :=
  featureNames.enum.map (fun p =>
    (p.2, pdMean (centers.map (fun c => |c.getD p.1 0|))))

/-- `_perform_segmentation_analysis`. The code performs no region-count
validation of its own: selecting the feature columns raises `KeyError` if a
feature category is absent from the whole pivoted table, and `KMeans.fit`
raises `ValueError` when there are fewer surviving regions than clusters.
`nClusters` is the `n_clusters=4` literal of the `KMeans` constructor, made
explicit; the profile loop iterates the source's literal `range(4)`. -/
def perform_segmentation_analysis (env : PyEnv) (nClusters : ℕ)
    (mobility : List MobilityRow) (spending : List SpendingRow) :
    Except AnalyticsError SegmentationResult :=
  let combined := combinedRows mobility spending
  let spendCats := spending.map (fun r => r.category)
  if ¬ spendCats.contains "restaurants" then .error (.keyError "restaurants")
  else if ¬ spendCats.contains "retail" then .error (.keyError "retail")
  else if ¬ spendCats.contains "entertainment" then .error (.keyError "entertainment")
  else
    let featureData := combined.map featureVector
    let normalized := scaledMatrix env.sqrtFn featureData
    if combined.length < nClusters then
      .error (.valueError combined.length nClusters)
    else
      let labels := env.kmLabels normalized
      .ok { cluster_profiles :=
              (List.range 4).map (fun cid => profileFor combined labels cid)
            feature_importance := featureImportance (env.kmCenters normalized)
            silhouette_score := 65/100
            n_clusters := 4
            algorithm := "kmeans" }

/-- One persona archetype template (`persona_templates` entries). -/
structure PersonaTemplate where
  name : String
  ptype : String
  description : String
  motivations : List String
  pain_points : List String
  channels : List String
  strategies : List String
deriving DecidableEq, Repr, Inhabited

/-- The fixed ordered persona template library of `_generate_persona_insights`. -/
def personaTemplates : List PersonaTemplate :=
  [{ name := "Urban Commuter Pro"
     ptype := "Urban Commuter"
     description := "Highly structured professionals who rely on bike-sharing for daily commuting to work and efficient city navigation."
     motivations := ["Reliable transportation", "Time efficiency", "Cost savings", "Environmental consciousness"]
     pain_points := ["Rush hour bike availability", "Weather dependency", "Station capacity", "Route planning"]
     channels := ["Mobile app", "Email newsletters", "LinkedIn", "Transit partnerships"]
     strategies := ["Corporate partnerships", "Commuter packages", "Priority access", "Weather alerts"] },
   { name := "Weekend Explorer"
     ptype := "Leisure Cyclist"
     description := "Recreation-focused users who enjoy cycling for leisure, fitness, and exploration on weekends and holidays."
     motivations := ["Recreation", "Fitness goals", "City exploration", "Social activities"]
     pain_points := ["Limited weekend availability", "Route discovery", "Group coordination", "Seasonal limitations"]
     channels := ["Social media", "Fitness apps", "Community events", "Tourism partnerships"]
     strategies := ["Weekend promotions", "Fitness challenges", "Scenic route guides", "Group discounts"] },
   { name := "Tech Innovator"
     ptype := "Tech Savvy"
     description := "Early adopters who embrace technology and seek innovative, connected transportation solutions."
     motivations := ["Innovation", "Convenience", "Smart city integration", "Data insights"]
     pain_points := ["App limitations", "Feature requests", "Integration gaps", "Tech support"]
     channels := ["Tech blogs", "Beta programs", "Developer communities", "Smart city initiatives"]
     strategies := ["Beta testing", "API access", "Smart features", "Tech partnerships"] },
   { name := "Budget Conscious"
     ptype := "Value Seeker"
     description := "Price-sensitive users who prioritize affordability and value in their transportation choices."
     motivations := ["Cost savings", "Value for money", "Budget management", "Alternative transport"]
     pain_points := ["Pricing complexity", "Hidden fees", "Payment options", "Service value"]
     channels := ["Price comparison sites", "Budget apps", "Community forums", "Local partnerships"]
     strategies := ["Value packages", "Student discounts", "Loyalty rewards", "Transparent pricing"] }]

/-- Seasonal multipliers attached to a persona. -/
structure SeasonalTrends where
  spring : ℚ
  summer : ℚ
  fall : ℚ
  winter : ℚ
deriving DecidableEq, Repr, Inhabited

/-- The mobility summary copied into a persona from its cluster profile. -/
structure MobilityProfile where
  avg_trips : ℤ
  member_ratio : ℚ
  avg_duration : ℚ
  usage_intensity : String
deriving DecidableEq, Repr, Inhabited

/-- The spending summary copied into a persona from its cluster profile. -/
structure SpendingProfile where
  restaurant_spending : ℤ
  spending_level : String
deriving DecidableEq, Repr, Inhabited

/-- One persona produced by `_generate_persona_insights`. -/
structure Persona where
  persona_id : String
  persona_name : String
  persona_type : String
  cluster_ids : List ℕ
  estimated_population : ℤ
  market_value : ℤ
  targeting_effectiveness : ℚ
  description : String
  key_motivations : List String
  pain_points : List String
  preferred_channels : List String
  marketing_strategies : List String
  seasonal_trends : SeasonalTrends
  mobility_profile : MobilityProfile
  spending_profile : SpendingProfile
deriving DecidableEq, Repr, Inhabited

/-- Per-cluster body of `_generate_persona_insights`: bind the i-th profile
to the (i mod 4)-th template, draw the market multiplier, the effectiveness
perturbation and the four seasonal perturbations, and build the persona. -/
def personaFor (env : PyEnv) (i : ℕ) (profile : ClusterProfile) (r : RandState) :
    Persona × RandState :=
  let template := personaTemplates.getD (i % personaTemplates.length)
    { name := "", ptype := "", description := "", motivations := [],
      pain_points := [], channels := [], strategies := [] }
  let estimated_population : ℤ := (profile.size : ℤ) * 50000
  let (u_market, r) := npUniform env 15 35 r
  let market_value := pyInt ((estimated_population : ℚ) * u_market)
  let (u_eff, r) := npUniform env 0 (1/10) r
  let effectiveness := 6/10 + profile.avg_member_ratio * (3/10) + u_eff
  let (u_spring, r) := npUniform env (-1/10) (2/10) r
  let (u_summer, r) := npUniform env (-1/10) (3/10) r
  let (u_fall, r) := npUniform env (-1/10) (2/10) r
  let (u_winter, r) := npUniform env (-2/10) (1/10) r
  ({ persona_id := "persona_" ++ toString i
     persona_name := template.name
     persona_type := template.ptype
     cluster_ids := [profile.cluster_id]
     estimated_population := estimated_population
     market_value := market_value
     targeting_effectiveness := pyRound 3 (min (95/100) effectiveness)
     description := template.description
     key_motivations := template.motivations
     pain_points := template.pain_points
     preferred_channels := template.channels
     marketing_strategies := template.strategies
     seasonal_trends :=
       { spring := pyRound 2 (1 + u_spring)
         summer := pyRound 2 (12/10 + u_summer)
         fall := pyRound 2 (9/10 + u_fall)
         winter := pyRound 2 (7/10 + u_winter) }
     mobility_profile :=
       { avg_trips := pyInt profile.avg_trips
         member_ratio := pyRound 3 profile.avg_member_ratio
         avg_duration := pyRound 1 profile.avg_duration
         usage_intensity := profile.characteristics.mobility_level }
     spending_profile :=
       { restaurant_spending := pyInt profile.avg_restaurant_spending
         spending_level := profile.characteristics.dining_preference } }, r)

/-- `_generate_persona_insights`: iterate the cluster profiles in insertion
order with their index (the demographic table is accepted but never read by
the source). -/
def generate_persona_insights (env : PyEnv) (seg : SegmentationResult)
    (_demographic : List DemographicRow) (r : RandState) :
    List Persona × RandState :=
  threadMap (fun p => personaFor env p.1 p.2) seg.cluster_profiles.enum r

/-- One business opportunity record. -/
structure Opportunity where
  opportunity_type : String
  description : String
  target_segments : List String
  estimated_market_size : ℤ
  investment_level : String
  expected_roi : String
  implementation_timeline : String
  key_metrics : List String
deriving DecidableEq, Repr, Inhabited

/-- `_identify_business_opportunities`: a fixed, hand-authored catalogue; the
persona argument is accepted but only its display names are referenced
statically inside `target_segments`. -/
def identify_business_opportunities (_personas : List Persona) : List Opportunity :=
  [{ opportunity_type := "Premium Commuter Services"
     description := "Develop premium service tier for high-frequency commuters with guaranteed bike availability and priority access."
     target_segments := ["Urban Commuter Pro"]
     estimated_market_size := 350000
     investment_level := "Medium"
     expected_roi := "25-35%"
     implementation_timeline := "6-9 months"
     key_metrics := ["Customer lifetime value", "Premium conversion rate", "Churn reduction"] },
   { opportunity_type := "Weekend Recreation Packages"
     description := "Create weekend-focused packages with scenic routes, fitness tracking, and group coordination features."
     target_segments := ["Weekend Explorer"]
     estimated_market_size := 180000
     investment_level := "Low"
     expected_roi := "15-25%"
     implementation_timeline := "3-6 months"
     key_metrics := ["Weekend usage growth", "Package adoption rate", "User engagement"] },
   { opportunity_type := "Smart Technology Integration"
     description := "Advanced IoT features, predictive analytics, and smart city integration for tech-savvy users."
     target_segments := ["Tech Innovator"]
     estimated_market_size := 220000
     investment_level := "High"
     expected_roi := "30-45%"
     implementation_timeline := "9-12 months"
     key_metrics := ["Feature adoption", "API usage", "Tech partnership value"] },
   { opportunity_type := "Value-Focused Membership"
     description := "Affordable membership tiers with transparent pricing and value-added benefits for budget-conscious users."
     target_segments := ["Budget Conscious"]
     estimated_market_size := 280000
     investment_level := "Low"
     expected_roi := "20-30%"
     implementation_timeline := "4-8 months"
     key_metrics := ["Price sensitivity analysis", "Conversion rate", "Customer acquisition cost"] },
   { opportunity_type := "Corporate Partnership Program"
     description := "B2B partnerships with employers for employee transportation benefits and corporate sustainability programs."
     target_segments := ["Urban Commuter Pro", "Tech Innovator"]
     estimated_market_size := 450000
     investment_level := "Medium"
     expected_roi := "35-50%"
     implementation_timeline := "6-12 months"
     key_metrics := ["Corporate contracts", "Employee adoption", "B2B revenue growth"] }]

/-- Next-quarter block of the demand forecast. -/
structure QuarterForecast where
  expected_growth : String
  peak_months : List String
  growth_drivers : List String
deriving DecidableEq, Repr, Inhabited

/-- One seasonal multiplier with its confidence. -/
structure SeasonPattern where
  multiplier : ℚ
  confidence : ℚ
deriving DecidableEq, Repr, Inhabited

/-- The four seasonal patterns of the demand forecast. -/
structure SeasonalPatterns where
  spring : SeasonPattern
  summer : SeasonPattern
  fall : SeasonPattern
  winter : SeasonPattern
deriving DecidableEq, Repr, Inhabited

/-- Demand-forecast block of the predictive insights. -/
structure DemandForecast where
  next_quarter : QuarterForecast
  seasonal_patterns : SeasonalPatterns
deriving DecidableEq, Repr, Inhabited

/-- Market-expansion block of the predictive insights. -/
structure MarketExpansion where
  high_potential_areas : List String
  expansion_roi : String
  optimal_timing : String
deriving DecidableEq, Repr, Inhabited

/-- User-behavior-trend block of the predictive insights. -/
structure BehaviorTrends where
  increasing_trip_duration : String
  membership_conversion : String
  weekend_usage_growth : String
deriving DecidableEq, Repr, Inhabited

/-- Revenue-projection block of the predictive insights. -/
structure RevenueProjections where
  base_case : String
  optimistic_case : String
  conservative_case : String
  key_assumptions : List String
deriving DecidableEq, Repr, Inhabited

/-- The structure returned by `_generate_predictive_insights`. -/
structure PredictiveInsights where
  demand_forecast : DemandForecast
  market_expansion : MarketExpansion
  user_behavior_trends : BehaviorTrends
  revenue_projections : RevenueProjections
deriving DecidableEq, Repr, Inhabited

/-- `_generate_predictive_insights`: a fixed structural report; the mobility
and spending arguments are accepted but never read. -/
def generate_predictive_insights (_mobility : List MobilityRow)
    (_spending : List SpendingRow) : PredictiveInsights :=
  { demand_forecast :=
      { next_quarter :=
          { expected_growth := "15-20%"
            peak_months := ["June", "July", "August"]
            growth_drivers := ["Summer weather", "Tourism increase", "Corporate partnerships"] }
        seasonal_patterns :=
          { spring := { multiplier := 11/10, confidence := 85/100 }
            summer := { multiplier := 135/100, confidence := 92/100 }
            fall := { multiplier := 95/100, confidence := 88/100 }
            winter := { multiplier := 65/100, confidence := 8/10 } } }
    market_expansion :=
      { high_potential_areas := ["Suburban corridors", "University districts", "Transit hubs"]
        expansion_roi := "25-40%"
        optimal_timing := "Q2 2024" }
    user_behavior_trends :=
      { increasing_trip_duration := "+8% year-over-year"
        membership_conversion := "Improving by 12%"
        weekend_usage_growth := "+22% compared to last year" }
    revenue_projections :=
      { base_case := "$2.8M annual revenue"
        optimistic_case := "$3.6M annual revenue"
        conservative_case := "$2.2M annual revenue"
        key_assumptions := ["15% user growth", "8% price optimization", "12% efficiency gains"] } }

/-- The aggregate block of the market intelligence. -/
structure MarketOverview where
  total_addressable_market : ℤ
  total_population : ℤ
  average_targeting_effectiveness : ℚ
  number_of_segments : ℕ
  total_opportunity_value : ℤ
deriving DecidableEq, Repr, Inhabited

/-- The structure returned by `_generate_market_intelligence`. -/
structure MarketIntelligence where
  market_overview : MarketOverview
  key_insights : List String
  strategic_recommendations : List String
  competitive_advantages : List String
  risk_factors : List String
deriving DecidableEq, Repr, Inhabited

/-- `_generate_market_intelligence`: sums and means over the personas and
opportunities, plus fixed narrative lists; the two formatted insight strings
substitute the highest persona market value and a fifth of the total
opportunity value through the float formatter. -/
def generate_market_intelligence (env : PyEnv) (personas : List Persona)
    (opportunities : List Opportunity) : MarketIntelligence :=
  let total_market_value := (personas.map (fun p => p.market_value)).sum
  let total_population := (personas.map (fun p => p.estimated_population)).sum
  let avg_effectiveness := pdMean (personas.map (fun p => p.targeting_effectiveness))
  let total_opportunity_value := (opportunities.map (fun o => o.estimated_market_size)).sum
  { market_overview :=
      { total_addressable_market := total_market_value
        total_population := total_population
        average_targeting_effectiveness := pyRound 3 avg_effectiveness
        number_of_segments := personas.length
        total_opportunity_value := total_opportunity_value }
    key_insights :=
      ["Urban commuters represent the highest value segment with $" ++
         env.fmtMoney ((pyMax (personas.map (fun p => p.market_value)) : ℚ)) ++
         " market potential",
       "Summer season shows 35% increase in usage across all segments",
       "Premium services could capture additional $" ++
         env.fmtMoney ((total_opportunity_value : ℚ) / 5) ++ " in annual revenue",
       "Technology integration opportunities show highest ROI potential (30-45%)",
       "Corporate partnerships represent largest untapped market opportunity",
       "Weekend recreational usage growing 22% year-over-year",
       "Membership conversion rates improving across all demographics"]
    strategic_recommendations :=
      ["Prioritize premium commuter services for immediate revenue impact",
       "Invest in technology infrastructure to capture tech-savvy segment",
       "Develop corporate partnership program for B2B growth",
       "Create seasonal marketing campaigns aligned with usage patterns",
       "Implement dynamic pricing to optimize revenue per trip",
       "Expand weekend recreational offerings to capture growing market"]
    competitive_advantages :=
      ["Data-driven persona targeting with 80%+ effectiveness",
       "Comprehensive multi-modal transportation insights",
       "Advanced predictive analytics for demand forecasting",
       "Integrated mobility and spending behavior analysis",
       "Real-time market intelligence and opportunity identification"]
    risk_factors :=
      ["Weather dependency affecting seasonal usage",
       "Competition from alternative transportation modes",
       "Regulatory changes in urban mobility policies",
       "Economic downturns impacting discretionary spending"] }

/-- The `data_summary` record of the analysis result. -/
structure DataSummary where
  mobility_records : ℕ
  spending_records : ℕ
  demographic_records : ℕ
  analysis_date : String
deriving DecidableEq, Repr, Inhabited

/-- The root object returned by `generate_comprehensive_analysis`. -/
structure AnalysisResults where
  personas : List Persona
  opportunities : List Opportunity
  insights : MarketIntelligence
  predictive_analytics : PredictiveInsights
  segmentation_results : SegmentationResult
  data_summary : DataSummary
deriving DecidableEq, Repr, Inhabited

/-- `generate_comprehensive_analysis`: run the generators, the segmentation
(with the `n_clusters=4` literal), the persona synthesis, the opportunity
catalogue, the predictive report and the market intelligence, threading the
process-wide generator state; a segmentation exception propagates unmodified.
`now` stands for `datetime.now().isoformat()`. -/
def generate_comprehensive_analysis (env : PyEnv) (now : String) (s : RandState) :
    Except AnalyticsError AnalysisResults × RandState :=
  let mobility := generate_mobility_data env s
  let spending := generate_spending_data env mobility.2
  let demographic := generate_demographic_data env spending.2
  match perform_segmentation_analysis env 4 mobility.1 spending.1 with
  | .error e => (.error e, demographic.2)
  | .ok seg =>
    let personas := generate_persona_insights env seg demographic.1 demographic.2
    let opportunities := identify_business_opportunities personas.1
    let predictive := generate_predictive_insights mobility.1 spending.1
    let intelligence := generate_market_intelligence env personas.1 opportunities
    (.ok { personas := personas.1
           opportunities := opportunities
           insights := intelligence
           predictive_analytics := predictive
           segmentation_results := seg
           data_summary :=
             { mobility_records := mobility.1.length
               spending_records := spending.1.length
               demographic_records := demographic.1.length
               analysis_date := now } }, personas.2)

/-- Market-value block of the visualization data. -/
structure MarketViz where
  persona_names : List String
  market_values : List ℤ
  populations : List ℤ
  effectiveness : List ℚ
deriving DecidableEq, Repr, Inhabited

/-- Opportunity block of the visualization data. -/
structure OpportunityViz where
  opportunity_types : List String
  market_sizes : List ℤ
  roi_ranges : List String
  investment_levels : List String
deriving DecidableEq, Repr, Inhabited

/-- The structure returned by `create_advanced_visualizations`. -/
structure VisualizationData where
  market_analysis : MarketViz
  opportunity_analysis : OpportunityViz
  seasonal_trends : List (String × SeasonalTrends)
  generated_at : String
deriving DecidableEq, Repr, Inhabited

/-- `create_advanced_visualizations`: reshape persona, opportunity and
seasonal data of a previously produced analysis result into chart-ready
series; `now` stands for the `datetime.now().isoformat()` call evaluated
inside the function. -/
def create_advanced_visualizations (res : AnalysisResults) (now : String) :
    VisualizationData :=
  { market_analysis :=
      { persona_names := res.personas.map (fun p => p.persona_name)
        market_values := res.personas.map (fun p => p.market_value)
        populations := res.personas.map (fun p => p.estimated_population)
        effectiveness := res.personas.map (fun p => p.targeting_effectiveness) }
    opportunity_analysis :=
      { opportunity_types := res.opportunities.map (fun o => o.opportunity_type)
        market_sizes := res.opportunities.map (fun o => o.estimated_market_size)
        roi_ranges := res.opportunities.map (fun o => o.expected_roi)
        investment_levels := res.opportunities.map (fun o => o.investment_level) }
    seasonal_trends := res.personas.map (fun p => (p.persona_name, p.seasonal_trends))
    generated_at := now }

/-- A concrete library environment used to evaluate the pipeline on closed
inputs: every raw stream value and every transform output is 0, KMeans
assigns labels cyclically, and the money formatter returns the empty
string. -/
def env0 : PyEnv :=
  { seedFn := fun _ _ => 0
    stdNormalT := fun _ => 0
    betaT := fun _ _ _ => 0
    gammaT := fun _ _ => 0
    expT := fun _ => 0
    uniT := fun _ => 0
    uniT_nonneg := fun _ => le_refl 0
    uniT_le_one := fun _ => by norm_num
    sqrtFn := fun q => q
    kmLabels := fun pts => (List.range pts.length).map (fun i => i % 4)
    kmCenters := fun _ => []
    fmtMoney := fun _ => "" }

/-- A concrete initial generator state with an empty event log. -/
def state0 : RandState :=
  { stream := fun _ => 0, pos := 0, log := [] }

/-- The mobility table generated under the concrete environment. -/
def mobility0 : List MobilityRow :=
  (generate_mobility_data env0 state0).1

/-- The spending table generated under the concrete environment. -/
def spending0 : List SpendingRow :=
  (generate_spending_data env0 state0).1

/-- The analysis result of a full run under the concrete environment. -/
def analysis0 : AnalysisResults :=
  match (generate_comprehensive_analysis env0 "t" state0).1 with
  | .ok r => r
  | .error _ => default

/-- The segmentation result computed on the concretely generated tables. -/
def segmentation0 : SegmentationResult :=
  match perform_segmentation_analysis env0 4 mobility0 spending0 with
  | .ok r => r
  | .error _ => default

/-- The seed values recorded in an event log, in order. -/
def seedEvents (l : List RngEvent) : List ℕ :=
  l.filterMap (fun e => match e with | .seed k => some k | .draw => none)

/-- Threaded append-one fold: the records produced and the observable core of
the final state depend only on the core of the starting state, provided the
per-element function has that property. -/
lemma threadFold_congr {γ α : Type} (f : γ → RandState → α × RandState)
    (hf : ∀ c r1 r2, r1.core = r2.core →
      (f c r1).1 = (f c r2).1 ∧ (f c r1).2.core = (f c r2).2.core) :
    ∀ (l : List γ) (acc : List α) (r1 r2 : RandState), r1.core = r2.core →
      (l.foldl (fun acc c => (acc.1 ++ [(f c acc.2).1], (f c acc.2).2)) (acc, r1)).1 =
        (l.foldl (fun acc c => (acc.1 ++ [(f c acc.2).1], (f c acc.2).2)) (acc, r2)).1 ∧
      (l.foldl (fun acc c => (acc.1 ++ [(f c acc.2).1], (f c acc.2).2)) (acc, r1)).2.core =
        (l.foldl (fun acc c => (acc.1 ++ [(f c acc.2).1], (f c acc.2).2)) (acc, r2)).2.core := by
  intro l
  induction l with
  | nil => exact fun acc r1 r2 h => ⟨rfl, h⟩
  | cons c cs ih =>
      intro acc r1 r2 h
      have hc := hf c r1 r2 h
      simp only [List.foldl_cons]
      rw [← hc.1]
      exact ih _ _ _ hc.2

/-- Threaded append-block fold: same congruence property as
`threadFold_congr` for loops that append a block of records per element. -/
lemma threadFoldFlat_congr {γ α : Type} (f : γ → RandState → List α × RandState)
    (hf : ∀ c r1 r2, r1.core = r2.core →
      (f c r1).1 = (f c r2).1 ∧ (f c r1).2.core = (f c r2).2.core) :
    ∀ (l : List γ) (acc : List α) (r1 r2 : RandState), r1.core = r2.core →
      (l.foldl (fun acc c => (acc.1 ++ (f c acc.2).1, (f c acc.2).2)) (acc, r1)).1 =
        (l.foldl (fun acc c => (acc.1 ++ (f c acc.2).1, (f c acc.2).2)) (acc, r2)).1 ∧
      (l.foldl (fun acc c => (acc.1 ++ (f c acc.2).1, (f c acc.2).2)) (acc, r1)).2.core =
        (l.foldl (fun acc c => (acc.1 ++ (f c acc.2).1, (f c acc.2).2)) (acc, r2)).2.core := by
  intro l
  induction l with
  | nil => exact fun acc r1 r2 h => ⟨rfl, h⟩
  | cons c cs ih =>
      intro acc r1 r2 h
      have hc := hf c r1 r2 h
      simp only [List.foldl_cons]
      rw [← hc.1]
      exact ih _ _ _ hc.2

/-- Per-county congruence for the mobility row generator: the row built and
the core of the resulting state depend only on the core of the incoming
state, never on its event log. -/
lemma mobilityRowFor_congr (env : PyEnv) (county : String) (r1 r2 : RandState)
    (h : r1.core = r2.core) :
    (mobilityRowFor env county r1).1 = (mobilityRowFor env county r2).1 ∧
    (mobilityRowFor env county r1).2.core = (mobilityRowFor env county r2).2.core := by
  obtain ⟨s1, p1, l1⟩ := r1
  obtain ⟨s2, p2, l2⟩ := r2
  simp only [RandState.core, Prod.mk.injEq] at h
  obtain ⟨hs, hp⟩ := h
  subst hs; subst hp
  by_cases h1 : county = "36061" <;> by_cases h2 : county = "17031" <;>
    by_cases h3 : county = "06037" <;>
    simp [mobilityRowFor, npNormal, npBeta, npGamma, npExponential,
      RandState.next, RandState.core, h1, h2, h3]

/-- Per-county congruence for the spending block generator. -/
lemma countySpendingRows_congr (env : PyEnv) (county : String) (r1 r2 : RandState)
    (h : r1.core = r2.core) :
    (countySpendingRows env county r1).1 = (countySpendingRows env county r2).1 ∧
    (countySpendingRows env county r1).2.core = (countySpendingRows env county r2).2.core := by
  obtain ⟨s1, p1, l1⟩ := r1
  obtain ⟨s2, p2, l2⟩ := r2
  simp only [RandState.core, Prod.mk.injEq] at h
  obtain ⟨hs, hp⟩ := h
  subst hs; subst hp
  by_cases h3 : county = "06037" <;>
    simp [countySpendingRows, countyCategoryAmounts, categoryBaseAmount,
      categoriesList, List.foldl_cons, List.foldl_nil,
      npGamma, RandState.next, RandState.core, h3]

/-- Per-county congruence for the demographic row generator. -/
lemma demographicRowFor_congr (env : PyEnv) (county : String) (r1 r2 : RandState)
    (h : r1.core = r2.core) :
    (demographicRowFor env county r1).1 = (demographicRowFor env county r2).1 ∧
    (demographicRowFor env county r1).2.core = (demographicRowFor env county r2).2.core := by
  obtain ⟨s1, p1, l1⟩ := r1
  obtain ⟨s2, p2, l2⟩ := r2
  simp only [RandState.core, Prod.mk.injEq] at h
  obtain ⟨hs, hp⟩ := h
  subst hs; subst hp
  simp [demographicRowFor, npNormal, npBeta, npExponential,
    RandState.next, RandState.core]

/-- C5. Determinism of the synthetic data generators: with the same library
environment (hence the same seed-to-stream map, and the hard-coded seed 42
and region list), two invocations started from arbitrary, possibly
different, prior generator states produce field-for-field identical mobility,
spending and demographic tables — each generator begins by reseeding, which
overwrites whatever state the process-wide generator was in. -/
theorem C5_generator_determinism (env : PyEnv) (s1 s2 : RandState) :
    (generate_mobility_data env s1).1 = (generate_mobility_data env s2).1 ∧
    (generate_spending_data env s1).1 = (generate_spending_data env s2).1 ∧
    (generate_demographic_data env s1).1 = (generate_demographic_data env s2).1 := by
  have hseed : (npSeed env 42 s1).core = (npSeed env 42 s2).core := rfl
  refine ⟨?_, ?_, ?_⟩
  · exact (threadFold_congr (mobilityRowFor env) (mobilityRowFor_congr env)
      countiesList [] _ _ hseed).1
  · exact (threadFoldFlat_congr (countySpendingRows env) (countySpendingRows_congr env)
      countiesList [] _ _ hseed).1
  · exact (threadFold_congr (demographicRowFor env) (demographicRowFor_congr env)
      countiesList [] _ _ hseed).1

/-- Threaded append-one fold: the final event log is the starting log
followed by each element's event block, provided the per-element function
only appends a fixed block. -/
lemma threadFold_log {γ α : Type} (f : γ → RandState → α × RandState)
    (t : γ → List RngEvent) (hf : ∀ c r, (f c r).2.log = r.log ++ t c) :
    ∀ (l : List γ) (acc : List α) (r : RandState),
      (l.foldl (fun acc c => (acc.1 ++ [(f c acc.2).1], (f c acc.2).2)) (acc, r)).2.log =
        r.log ++ (l.map t).flatten := by
  intro l
  induction l with
  | nil => intro acc r; simp
  | cons c cs ih =>
      intro acc r
      simp only [List.foldl_cons, List.map_cons, List.flatten_cons]
      rw [ih, hf, List.append_assoc]

/-- Threaded append-block fold: same log decomposition as `threadFold_log`. -/
lemma threadFoldFlat_log {γ α : Type} (f : γ → RandState → List α × RandState)
    (t : γ → List RngEvent) (hf : ∀ c r, (f c r).2.log = r.log ++ t c) :
    ∀ (l : List γ) (acc : List α) (r : RandState),
      (l.foldl (fun acc c => (acc.1 ++ (f c acc.2).1, (f c acc.2).2)) (acc, r)).2.log =
        r.log ++ (l.map t).flatten := by
  intro l
  induction l with
  | nil => intro acc r; simp
  | cons c cs ih =>
      intro acc r
      simp only [List.foldl_cons, List.map_cons, List.flatten_cons]
      rw [ih, hf, List.append_assoc]

/-- The mobility row generator draws nine samples per county and never
reseeds. -/
lemma mobilityRowFor_log (env : PyEnv) (county : String) (r : RandState) :
    (mobilityRowFor env county r).2.log = r.log ++ List.replicate 9 RngEvent.draw := by
  by_cases h1 : county = "36061" <;> by_cases h2 : county = "17031" <;>
    by_cases h3 : county = "06037" <;>
    simp [mobilityRowFor, npNormal, npBeta, npGamma, npExponential,
      RandState.next, h1, h2, h3, List.replicate]

/-- The spending block generator draws six samples per county and never
reseeds. -/
lemma countySpendingRows_log (env : PyEnv) (county : String) (r : RandState) :
    (countySpendingRows env county r).2.log = r.log ++ List.replicate 6 RngEvent.draw := by
  by_cases h3 : county = "06037" <;>
    simp [countySpendingRows, countyCategoryAmounts, categoryBaseAmount,
      categoriesList, List.foldl_cons, List.foldl_nil,
      npGamma, RandState.next, h3, List.replicate]

/-- The demographic row generator draws six samples per county and never
reseeds. -/
lemma demographicRowFor_log (env : PyEnv) (county : String) (r : RandState) :
    (demographicRowFor env county r).2.log = r.log ++ List.replicate 6 RngEvent.draw := by
  simp [demographicRowFor, npNormal, npBeta, npExponential,
    RandState.next, List.replicate]

/-- The persona builder draws six samples per cluster and never reseeds. -/
lemma personaFor_log (env : PyEnv) (i : ℕ) (profile : ClusterProfile) (r : RandState) :
    (personaFor env i profile r).2.log = r.log ++ List.replicate 6 RngEvent.draw := by
  simp [personaFor, npUniform, RandState.next, List.replicate]

/-- `seedEvents` distributes over list append. -/
lemma seedEvents_append (a b : List RngEvent) :
    seedEvents (a ++ b) = seedEvents a ++ seedEvents b :=
  List.filterMap_append a b _

/-- A block of draw events contributes no seed events. -/
lemma seedEvents_replicate_draw (n : ℕ) :
    seedEvents (List.replicate n RngEvent.draw) = [] := by
  induction n with
  | zero => rfl
  | succ m ih => simp [List.replicate, seedEvents, ih]

/-- A joined list of uniform draw blocks contributes no seed events. -/
lemma seedEvents_join_draws {γ : Type} (l : List γ) (n : ℕ) :
    seedEvents ((l.map (fun _ => List.replicate n RngEvent.draw)).flatten) = [] := by
  induction l with
  | nil => rfl
  | cons c cs ih =>
      simp [seedEvents_append, seedEvents_replicate_draw, ih]

/-- The mobility generator log: one reseed with 42 up front, then 63 draws. -/
lemma generate_mobility_data_log (env : PyEnv) (s : RandState) :
    (generate_mobility_data env s).2.log =
      s.log ++ RngEvent.seed 42 :: List.replicate 63 RngEvent.draw := by
  have h := threadFold_log (mobilityRowFor env) (fun _ => List.replicate 9 RngEvent.draw)
    (fun c r => mobilityRowFor_log env c r) countiesList [] (npSeed env 42 s)
  simpa [generate_mobility_data, threadMap, npSeed, countiesList, List.replicate] using h

/-- The spending generator log: one reseed with 42 up front, then 42 draws. -/
lemma generate_spending_data_log (env : PyEnv) (s : RandState) :
    (generate_spending_data env s).2.log =
      s.log ++ RngEvent.seed 42 :: List.replicate 42 RngEvent.draw := by
  have h := threadFoldFlat_log (countySpendingRows env) (fun _ => List.replicate 6 RngEvent.draw)
    (fun c r => countySpendingRows_log env c r) countiesList [] (npSeed env 42 s)
  simpa [generate_spending_data, threadFlatMap, npSeed, countiesList, List.replicate] using h

/-- The demographic generator log: one reseed with 42 up front, then 42
draws. -/
lemma generate_demographic_data_log (env : PyEnv) (s : RandState) :
    (generate_demographic_data env s).2.log =
      s.log ++ RngEvent.seed 42 :: List.replicate 42 RngEvent.draw := by
  have h := threadFold_log (demographicRowFor env) (fun _ => List.replicate 6 RngEvent.draw)
    (fun c r => demographicRowFor_log env c r) countiesList [] (npSeed env 42 s)
  simpa [generate_demographic_data, threadMap, npSeed, countiesList, List.replicate] using h

/-- The persona stage only draws; it records no seed event. -/
lemma generate_persona_insights_seedEvents (env : PyEnv) (seg : SegmentationResult)
    (demo : List DemographicRow) (r : RandState) :
    seedEvents ((generate_persona_insights env seg demo r).2.log) = seedEvents r.log := by
  have h := threadFold_log (fun p => personaFor env p.1 p.2)
    (fun _ => List.replicate 6 RngEvent.draw)
    (fun c r => personaFor_log env c.1 c.2 r) seg.cluster_profiles.enum [] r
  simp only [generate_persona_insights, threadMap]
  rw [h, seedEvents_append, seedEvents_join_draws, List.append_nil]

set_option maxRecDepth 100000 in
/-- C4 counterexample. In a concrete full run started with an empty event
log, the process-wide generator records three seed events, not one: the claim
that it is seeded exactly once per run is false. -/
theorem C4_counterexample :
    (seedEvents ((generate_comprehensive_analysis env0 "t" state0).2.log)).length = 3 ∧
    (3 : ℕ) ≠ 1 := by
  constructor
  · decide
  · decide

/-- C4 amended. During one invocation of `generate_comprehensive_analysis`
the process-wide generator is reseeded three times, all with the constant 42:
once at the start of each of the three synthetic data generators (mobility:
63 draws follow; spending: 42 draws; demographic: 42 draws). No stage after
the generators reseeds it — in particular the persona stage only draws. -/
theorem C4_seeding_discipline (env : PyEnv) (now : String) (s : RandState) :
    seedEvents ((generate_comprehensive_analysis env now s).2.log) =
      seedEvents s.log ++ [42, 42, 42] ∧
    (generate_mobility_data env s).2.log =
      s.log ++ RngEvent.seed 42 :: List.replicate 63 RngEvent.draw ∧
    (generate_spending_data env s).2.log =
      s.log ++ RngEvent.seed 42 :: List.replicate 42 RngEvent.draw ∧
    (generate_demographic_data env s).2.log =
      s.log ++ RngEvent.seed 42 :: List.replicate 42 RngEvent.draw := by
  refine ⟨?_, generate_mobility_data_log env s, generate_spending_data_log env s,
    generate_demographic_data_log env s⟩
  have hthree : seedEvents ((generate_demographic_data env
      (generate_spending_data env (generate_mobility_data env s).2).2).2.log) =
      seedEvents s.log ++ [42, 42, 42] := by
    rw [generate_demographic_data_log, generate_spending_data_log,
      generate_mobility_data_log]
    simp [seedEvents_append, seedEvents_replicate_draw, seedEvents]
  simp only [generate_comprehensive_analysis]
  cases hseg : perform_segmentation_analysis env 4 (generate_mobility_data env s).1
      (generate_spending_data env (generate_mobility_data env s).2).1 with
  | error e => simpa using hthree
  | ok seg =>
      simpa [generate_persona_insights_seedEvents] using hthree

set_option maxRecDepth 100000 in
unseal Rat.mul Rat.inv Rat.add Rat.sub in
/-- C3 counterexample. Two calls of `create_advanced_visualizations` on the
same analysis result yield different visualization structures, because the
structure embeds the wall-clock `generated_at` timestamp taken inside the
function and the two calls happen at different instants. -/
theorem C3_counterexample :
    create_advanced_visualizations analysis0 "2024-01-01T00:00:00" ≠
      create_advanced_visualizations analysis0 "2024-01-01T00:00:01" := by
  decide

/-- C3 amended. `create_advanced_visualizations` is a pure projection of its
analysis-result argument up to the `generated_at` timestamp: the market,
opportunity and seasonal blocks are identical across two calls on the same
result regardless of the call instants, and only `generated_at` carries the
instant; no new derived numbers are computed. -/
theorem C3_projection_up_to_timestamp (res : AnalysisResults) (t1 t2 : String) :
    (create_advanced_visualizations res t1).market_analysis =
      (create_advanced_visualizations res t2).market_analysis ∧
    (create_advanced_visualizations res t1).opportunity_analysis =
      (create_advanced_visualizations res t2).opportunity_analysis ∧
    (create_advanced_visualizations res t1).seasonal_trends =
      (create_advanced_visualizations res t2).seasonal_trends ∧
    (create_advanced_visualizations res t1).generated_at = t1 :=
  ⟨rfl, rfl, rfl, rfl⟩

/-- C10. The clustering quality score reported by the segmentation step is
the hard-coded constant 0.65 on every input on which the step succeeds; it is
not computed from the cluster assignments or the feature data. -/
theorem C10_silhouette_constant (env : PyEnv) (k : ℕ) (mobility : List MobilityRow)
    (spending : List SpendingRow) (r : SegmentationResult)
    (h : perform_segmentation_analysis env k mobility spending = Except.ok r) :
    r.silhouette_score = 65/100 := by
  simp only [perform_segmentation_analysis] at h
  split_ifs at h
  all_goals first
  | exact Except.noConfusion h
  | (injection h with h'
     rw [← h'])

deriving instance DecidableEq for Except

set_option maxRecDepth 100000 in
unseal Rat.mul Rat.inv Rat.add Rat.sub in
/-- C10 witness: the segmentation of the concretely generated tables succeeds
and reports exactly 0.65. -/
theorem C10_witness : segmentation0.silhouette_score = 65/100 :=
  C10_silhouette_constant env0 4 mobility0 spending0 segmentation0 (by decide)

/-- Mean of a list whose entries are all equal to `c` is `c`. -/
lemma pdMean_const {l : List ℚ} {c : ℚ} (hne : l ≠ []) (h : ∀ x ∈ l, x = c) :
    pdMean l = c := by
  unfold pdMean
  rw [List.sum_eq_card_nsmul l c h, nsmul_eq_mul]
  have hlen : (l.length : ℚ) ≠ 0 := by
    exact_mod_cast Nat.pos_iff_ne_zero.mp (List.length_pos.mpr hne)
  field_simp

/-- C9. Per-column standard-score normalization of a feature matrix never
divides by a zero scale: on a matrix whose `j`-th column is constant (zero
variance), normalization succeeds and every row of the scaled matrix carries
the value 0 in that column. -/
theorem C9_zero_variance_column (sqrtFn : ℚ → ℚ) (m : List (List ℚ)) (j : ℕ)
    (c : ℚ) (hne : m ≠ []) (hcol : ∀ row ∈ m, row.getD j 0 = c) :
    ∀ row ∈ scaledMatrix sqrtFn m, row.getD j 0 = 0 := by
  have hcolList : ∀ x ∈ matrixColumn m j, x = c := by
    intro x hx
    simp only [matrixColumn, List.mem_map] at hx
    obtain ⟨row, hrow, rfl⟩ := hx
    exact hcol row hrow
  have hcne : matrixColumn m j ≠ [] := by
    simp [matrixColumn, hne]
  have hmean : colMean (matrixColumn m j) = c := by
    unfold colMean
    have := pdMean_const hcne hcolList
    simpa [pdMean] using this
  have hvar : colVar (matrixColumn m j) = 0 := by
    unfold colVar
    have hz : ∀ x ∈ (matrixColumn m j).map
        (fun x => (x - colMean (matrixColumn m j)) ^ 2), x = 0 := by
      intro x hx
      simp only [List.mem_map] at hx
      obtain ⟨y, hy, rfl⟩ := hx
      rw [hcolList y hy, hmean]
      ring
    rw [List.sum_eq_card_nsmul _ 0 hz]
    simp
  intro row hrow
  simp only [scaledMatrix, List.mem_map] at hrow
  obtain ⟨src, hsrc, rfl⟩ := hrow
  by_cases hj : j < src.length
  · have hj' : j < (src.mapIdx (fun j x => scaleEntry sqrtFn (matrixColumn m j) x)).length := by
      simpa [List.length_mapIdx] using hj
    have h1 : (src.mapIdx (fun j x => scaleEntry sqrtFn (matrixColumn m j) x)).getD j 0 =
        (src.mapIdx (fun j x => scaleEntry sqrtFn (matrixColumn m j) x)).get ⟨j, hj'⟩ := by
      rw [List.getD_eq_getElem _ _ hj']
      rfl
    rw [h1, List.get_mapIdx src (fun j x => scaleEntry sqrtFn (matrixColumn m j) x) j hj hj']
    have hsrcj : src.get ⟨j, hj⟩ = c := by
      have h2 := hcol src hsrc
      rw [List.getD_eq_getElem _ _ hj] at h2
      simpa using h2
    simp only [scaleEntry]
    rw [if_pos hvar, hsrcj, hmean]
    ring
  · have hle : (src.mapIdx (fun j x => scaleEntry sqrtFn (matrixColumn m j) x)).length ≤ j := by
      simpa [List.length_mapIdx] using Nat.le_of_not_lt hj
    rw [List.getD_eq_default _ _ hle]

unseal Rat.mul Rat.inv Rat.add Rat.sub in
/-- C9 witness: on the concrete matrix with constant first column
`[[5, 1], [5, 2]]`, the first scaled row carries 0 in the first column. -/
theorem C9_witness :
    ((scaledMatrix (fun q => q) [[5, 1], [5, 2]]).headD []).getD 0 0 = 0 :=
  C9_zero_variance_column (fun q => q) [[5, 1], [5, 2]] 0 5 (by decide)
    (by decide) ((scaledMatrix (fun q => q) [[5, 1], [5, 2]]).headD []) (by decide)

set_option maxRecDepth 100000 in
unseal Rat.mul Rat.inv Rat.add Rat.sub in
/-- C1 counterexample. Requesting 10 clusters against the 7-region generated
dataset makes the run fail with the clustering library's `ValueError` (which
names the sample and cluster counts), not with a `ConfigurationError`: no
code path in the engine constructs a `ConfigurationError`. -/
theorem C1_counterexample :
    perform_segmentation_analysis env0 10 mobility0 spending0 =
      Except.error (AnalyticsError.valueError 7 10) ∧
    (AnalyticsError.valueError 7 10).isConfigurationError = false := by
  constructor
  · decide
  · rfl

/-- C1 amended. When the surviving region count is smaller than the requested
cluster count, the segmentation step fails — so no empty clusters are ever
silently produced — but the failure is the clustering library's `ValueError`
naming the sample count and the cluster count; the engine performs no region
count validation of its own, and nothing raises a `ConfigurationError`. -/
theorem C1_too_few_regions_valueError (env : PyEnv) (k : ℕ)
    (mobility : List MobilityRow) (spending : List SpendingRow)
    (h1 : (spending.map (fun r => r.category)).contains "restaurants" = true)
    (h2 : (spending.map (fun r => r.category)).contains "retail" = true)
    (h3 : (spending.map (fun r => r.category)).contains "entertainment" = true)
    (h4 : (combinedRows mobility spending).length < k) :
    perform_segmentation_analysis env k mobility spending =
      Except.error (AnalyticsError.valueError (combinedRows mobility spending).length k) := by
  simp only [perform_segmentation_analysis]
  rw [if_neg (by simpa using h1), if_neg (by simpa using h2),
    if_neg (by simpa using h3), if_pos h4]

unseal Rat.mul Rat.inv Rat.add Rat.sub in
/-- C1 witness: the amended statement evaluated at the concretely generated
7-region tables with 10 requested clusters. -/
theorem C1_witness :
    perform_segmentation_analysis env0 10 mobility0 spending0 =
      Except.error (AnalyticsError.valueError (combinedRows mobility0 spending0).length 10) :=
  C1_too_few_regions_valueError env0 10 mobility0 spending0
    (by decide) (by decide) (by decide) (by decide)

/-- C7. Feature assembly join semantics: a mobility region with no spending
rows at all contributes no row to the assembled (combined) table, while a
mobility region with at least one spending row contributes exactly its
combined row, and any feature category for which that region has no spending
row appears there with value 0 instead of excluding the region. -/
theorem C7_join_semantics (mobility : List MobilityRow) (spending : List SpendingRow)
    (m : MobilityRow) (hm : m ∈ mobility) :
    ((spending.map (fun r => r.county_fips)).contains m.county_fips = false →
      ∀ cr ∈ combinedRows mobility spending, cr.mob.county_fips ≠ m.county_fips) ∧
    ((spending.map (fun r => r.county_fips)).contains m.county_fips = true →
      ∃ cr ∈ combinedRows mobility spending, cr.mob = m ∧
        ((∀ row ∈ spending,
            ¬(row.county_fips = m.county_fips ∧ row.category = "restaurants")) →
          cr.restaurants = 0) ∧
        ((∀ row ∈ spending,
            ¬(row.county_fips = m.county_fips ∧ row.category = "retail")) →
          cr.retail = 0) ∧
        ((∀ row ∈ spending,
            ¬(row.county_fips = m.county_fips ∧ row.category = "entertainment")) →
          cr.entertainment = 0)) := by
  have hpivot : ∀ category : String,
      (∀ row ∈ spending, ¬(row.county_fips = m.county_fips ∧ row.category = category)) →
      pivotValue spending m.county_fips category = 0 := by
    intro category hnone
    unfold pivotValue
    have hfind : spending.find?
        (fun r => r.county_fips = m.county_fips ∧ r.category = category) = none := by
      rw [List.find?_eq_none]
      intro x hx
      simpa using hnone x hx
    rw [hfind]
  constructor
  · intro hno cr hcr
    simp only [combinedRows, List.mem_filterMap] at hcr
    obtain ⟨m', hm', hsome⟩ := hcr
    by_cases hc : (spending.map (fun r => r.county_fips)).contains m'.county_fips
    · rw [if_pos hc] at hsome
      injection hsome with hcr'
      intro hbad
      rw [← hcr'] at hbad
      simp only at hbad
      rw [hbad] at hc
      rw [hc] at hno
      exact Bool.noConfusion hno
    · rw [if_neg hc] at hsome
      exact Option.noConfusion hsome
  · intro hyes
    refine ⟨{ mob := m
              restaurants := pivotValue spending m.county_fips "restaurants"
              retail := pivotValue spending m.county_fips "retail"
              entertainment := pivotValue spending m.county_fips "entertainment" },
      ?_, rfl, fun h => hpivot _ h, fun h => hpivot _ h, fun h => hpivot _ h⟩
    apply List.mem_filterMap.mpr
    exact ⟨m, hm, by rw [if_pos hyes]⟩

/-- A minimal concrete mobility row for county A. -/
def mobilityRowA : MobilityRow :=
  { county_fips := "A", county_name := "County A", total_trips := 10,
    avg_trip_duration_minutes := 10, member_trips := 5, casual_trips := 5,
    member_ratio := 1/2, peak_hour_ratio := 0, weekend_ratio := 0,
    night_trips_ratio := 0, avg_trip_distance_km := 1, station_density := 1,
    inter_county_ratio := 0 }

/-- A minimal concrete mobility row for county B, which has no spending. -/
def mobilityRowB : MobilityRow :=
  { mobilityRowA with county_fips := "B", county_name := "County B" }

/-- A one-row spending table: county A has only a restaurants row. -/
def spendingRowsA : List SpendingRow :=
  [{ county_fips := "A", category := "restaurants", spending_amount := 100,
     spending_proportion := 1 }]

unseal Rat.mul Rat.inv Rat.add Rat.sub in
/-- C7 witness: on the concrete two-region tables, county B (mobility only)
contributes no combined row, while county A survives with a combined row in
which the retail and entertainment categories, absent from its spending rows,
are 0. -/
theorem C7_witness :
    (∀ cr ∈ combinedRows [mobilityRowA, mobilityRowB] spendingRowsA,
        cr.mob.county_fips ≠ mobilityRowB.county_fips) ∧
    (∃ cr ∈ combinedRows [mobilityRowA, mobilityRowB] spendingRowsA,
        cr.mob = mobilityRowA ∧
        ((∀ row ∈ spendingRowsA,
            ¬(row.county_fips = mobilityRowA.county_fips ∧ row.category = "restaurants")) →
          cr.restaurants = 0) ∧
        ((∀ row ∈ spendingRowsA,
            ¬(row.county_fips = mobilityRowA.county_fips ∧ row.category = "retail")) →
          cr.retail = 0) ∧
        ((∀ row ∈ spendingRowsA,
            ¬(row.county_fips = mobilityRowA.county_fips ∧ row.category = "entertainment")) →
          cr.entertainment = 0)) :=
  ⟨(C7_join_semantics [mobilityRowA, mobilityRowB] spendingRowsA mobilityRowB
      (by decide)).1 (by decide),
   (C7_join_semantics [mobilityRowA, mobilityRowB] spendingRowsA mobilityRowA
      (by decide)).2 (by decide)⟩

/-- C8. Aggregate consistency: in every analysis result the pipeline returns,
the market-overview field `total_addressable_market` equals the sum of
`market_value` over the personas of that same result, and `total_population`
equals the sum of their `estimated_population`. -/
theorem C8_aggregate_consistency (env : PyEnv) (now : String) (s : RandState)
    (res : AnalysisResults)
    (h : (generate_comprehensive_analysis env now s).1 = Except.ok res) :
    res.insights.market_overview.total_addressable_market =
      (res.personas.map (fun p => p.market_value)).sum ∧
    res.insights.market_overview.total_population =
      (res.personas.map (fun p => p.estimated_population)).sum := by
  simp only [generate_comprehensive_analysis] at h
  cases hseg : perform_segmentation_analysis env 4 (generate_mobility_data env s).1
      (generate_spending_data env (generate_mobility_data env s).2).1 with
  | error e =>
      rw [hseg] at h
      exact Except.noConfusion h
  | ok seg =>
      rw [hseg] at h
      injection h with h'
      subst h'
      exact ⟨rfl, rfl⟩

set_option maxRecDepth 100000 in
unseal Rat.mul Rat.inv Rat.add Rat.sub in
/-- C8 witness: the aggregate-consistency equations evaluated on the concrete
full run. -/
theorem C8_witness :
    analysis0.insights.market_overview.total_addressable_market =
      (analysis0.personas.map (fun p => p.market_value)).sum ∧
    analysis0.insights.market_overview.total_population =
      (analysis0.personas.map (fun p => p.estimated_population)).sum :=
  C8_aggregate_consistency env0 "t" state0 analysis0 (by decide)

/-- Rounding to `n` decimal places is monotone. -/
lemma pyRound_mono (n : ℕ) {x y : ℚ} (h : x ≤ y) : pyRound n x ≤ pyRound n y := by
  unfold pyRound
  have h10 : (0:ℚ) < 10 ^ n := by positivity
  have hr : round (x * 10 ^ n) ≤ round (y * 10 ^ n) := by
    rw [round_eq, round_eq]
    exact Int.floor_mono (by nlinarith)
  exact (div_le_div_iff_of_pos_right h10).mpr (by exact_mod_cast hr)

/-- A value below a rounding-stable bound rounds to a value below it. -/
lemma pyRound_le_of_le {n : ℕ} {x b : ℚ} (hx : x ≤ b) (hb : pyRound n b = b) :
    pyRound n x ≤ b :=
  hb ▸ pyRound_mono n hx

/-- A value above a rounding-stable bound rounds to a value above it. -/
lemma le_pyRound_of_le {n : ℕ} {a x : ℚ} (ha : pyRound n a = a) (hx : a ≤ x) :
    a ≤ pyRound n x :=
  ha ▸ pyRound_mono n hx

unseal Rat.mul Rat.inv Rat.add Rat.sub in
/-- The clamp bounds appearing in the generators are stable under the
roundings applied to them. -/
lemma pyRound_fixed_points :
    pyRound 3 (3/10) = 3/10 ∧ pyRound 3 (95/100) = 95/100 ∧
    pyRound 1 5 = 5 ∧ pyRound 1 30 = 30 ∧ pyRound 3 0 = 0 := by
  refine ⟨?_, ?_, ?_, ?_, ?_⟩ <;> decide

/-- The mean of a list of nonnegative rationals is nonnegative. -/
lemma pdMean_nonneg {l : List ℚ} (h : ∀ x ∈ l, 0 ≤ x) : 0 ≤ pdMean l :=
  div_nonneg (List.sum_nonneg h) (Nat.cast_nonneg _)

/-- Every generated mobility row obeys the documented clamp bounds: the
member ratio lies in `[0.3, 0.95]` and the average trip duration lies in
`[5, 30]`, whatever values the underlying distributions produce. -/
lemma mobilityRowFor_bounds (env : PyEnv) (county : String) (r : RandState) :
    3/10 ≤ ((mobilityRowFor env county r).1).member_ratio ∧
    ((mobilityRowFor env county r).1).member_ratio ≤ 95/100 ∧
    5 ≤ ((mobilityRowFor env county r).1).avg_trip_duration_minutes ∧
    ((mobilityRowFor env county r).1).avg_trip_duration_minutes ≤ 30 := by
  obtain ⟨hf1, hf2, hf3, hf4, hf5⟩ := pyRound_fixed_points
  by_cases h1 : county = "36061" <;> by_cases h2 : county = "17031" <;>
    by_cases h3 : county = "06037" <;>
    simp only [mobilityRowFor, npNormal, npBeta, npGamma, npExponential,
      RandState.next, h1, h2, h3, if_true, if_false, eq_self_iff_true,
      String.reduceEq, ite_true, ite_false] <;>
    exact ⟨le_pyRound_of_le hf1 (le_max_left _ _),
      pyRound_le_of_le (max_le (by norm_num) (min_le_left _ _)) hf2,
      le_pyRound_of_le hf3 (le_max_left _ _),
      pyRound_le_of_le (max_le (by norm_num) (min_le_left _ _)) hf4⟩

/-- Threaded append-one fold: every produced record comes from the
per-element function applied to some element and some intermediate state. -/
lemma threadFold_mem {γ α : Type} (f : γ → RandState → α × RandState) :
    ∀ (l : List γ) (acc : List α) (r : RandState) (x : α),
      x ∈ (l.foldl (fun acc c => (acc.1 ++ [(f c acc.2).1], (f c acc.2).2)) (acc, r)).1 →
      x ∈ acc ∨ ∃ c r', c ∈ l ∧ x = (f c r').1 := by
  intro l
  induction l with
  | nil => exact fun acc r x hx => Or.inl hx
  | cons c cs ih =>
      intro acc r x hx
      rcases ih _ _ x (by simpa [List.foldl_cons] using hx) with hacc | ⟨c', r', hc', rfl⟩
      · rcases List.mem_append.mp hacc with h | h
        · exact Or.inl h
        · exact Or.inr ⟨c, r, List.mem_cons_self c cs, by simpa using h⟩
      · exact Or.inr ⟨c', r', List.mem_cons_of_mem c hc', rfl⟩

/-- Bounds of `mobilityRowFor_bounds`, lifted to every row of the generated
mobility table. -/
lemma generated_mobility_bounds (env : PyEnv) (s : RandState) :
    ∀ row ∈ (generate_mobility_data env s).1,
      3/10 ≤ row.member_ratio ∧ row.member_ratio ≤ 95/100 ∧
      5 ≤ row.avg_trip_duration_minutes ∧ row.avg_trip_duration_minutes ≤ 30 := by
  intro row hrow
  have hmem := threadFold_mem (mobilityRowFor env) countiesList [] (npSeed env 42 s) row
    (by simpa [generate_mobility_data, threadMap] using hrow)
  rcases hmem with h | ⟨c, r', _, rfl⟩
  · simp at h
  · exact mobilityRowFor_bounds env c r'

/-- The row list of the segmentation result an `ok` outcome carries. -/
lemma perform_ok_profiles (env : PyEnv) (k : ℕ) (mobility : List MobilityRow)
    (spending : List SpendingRow) (seg : SegmentationResult)
    (h : perform_segmentation_analysis env k mobility spending = Except.ok seg) :
    seg.cluster_profiles = (List.range 4).map (fun cid =>
      profileFor (combinedRows mobility spending)
        (env.kmLabels (scaledMatrix env.sqrtFn
          ((combinedRows mobility spending).map featureVector))) cid) := by
  simp only [perform_segmentation_analysis] at h
  split_ifs at h
  all_goals first
  | exact Except.noConfusion h
  | (injection h with h'
     rw [← h'])

/-- Membership in the merged table implies the mobility part belongs to the
mobility table. -/
lemma combinedRows_mob_mem (mobility : List MobilityRow) (spending : List SpendingRow) :
    ∀ cr ∈ combinedRows mobility spending, cr.mob ∈ mobility := by
  intro cr hcr
  simp only [combinedRows, List.mem_filterMap] at hcr
  obtain ⟨m', hm', hsome⟩ := hcr
  by_cases hc : (spending.map (fun r => r.county_fips)).contains m'.county_fips
  · rw [if_pos hc] at hsome
    injection hsome with hcr'
    rw [← hcr']
    exact hm'
  · rw [if_neg hc] at hsome
    exact Option.noConfusion hsome

/-- The second component of an enumerated element belongs to the list. -/
lemma snd_mem_of_mem_enum {α : Type} {p : ℕ × α} {l : List α} (h : p ∈ l.enum) :
    p.2 ∈ l := by
  obtain ⟨i, a⟩ := p
  rw [List.enum_eq_zip_range] at h
  exact (List.of_mem_zip h).2

/-- The mean member ratio of a cluster profile is nonnegative whenever the
underlying combined rows carry nonnegative member ratios. -/
lemma profileFor_avg_mr_nonneg (combined : List CombinedRow) (labels : List ℕ)
    (cid : ℕ) (hc : ∀ cr ∈ combined, 0 ≤ cr.mob.member_ratio) :
    0 ≤ (profileFor combined labels cid).avg_member_ratio := by
  apply pdMean_nonneg
  intro x hx
  obtain ⟨cr, hcr, rfl⟩ := List.mem_map.mp hx
  refine hc cr ?_
  simp only [clusterRows, List.mem_map, List.mem_filter] at hcr
  obtain ⟨pr, ⟨hzip, _⟩, rfl⟩ := hcr
  exact (List.of_mem_zip hzip).1

/-- Targeting effectiveness of a built persona lies in `[0, 0.95]` whenever
the profile's mean member ratio is nonnegative. -/
lemma personaFor_targeting_bounds (env : PyEnv) (i : ℕ) (profile : ClusterProfile)
    (r : RandState) (hmr : 0 ≤ profile.avg_member_ratio) :
    0 ≤ ((personaFor env i profile r).1).targeting_effectiveness ∧
    ((personaFor env i profile r).1).targeting_effectiveness ≤ 95/100 := by
  obtain ⟨hf1, hf2, hf3, hf4, hf5⟩ := pyRound_fixed_points
  simp only [personaFor, npUniform, RandState.next]
  constructor
  · apply le_pyRound_of_le hf5
    apply le_min (by norm_num)
    have hu := env.uniT_nonneg (((r.stream (r.pos + 1)) : ℚ))
    have hmul : 0 ≤ profile.avg_member_ratio * (3/10) :=
      mul_nonneg hmr (by norm_num)
    nlinarith [env.uniT_nonneg (r.stream (r.pos + 1))]
  · exact pyRound_le_of_le (min_le_left _ _) hf2

/-- C6. Bounded scores: every generated mobility row keeps its clamped
fields inside the documented bounds (member ratio in `[0.3, 0.95]`, trip
duration in `[5, 30]`), and every persona of every analysis result the
pipeline returns has targeting effectiveness in `[0, 0.95]`. -/
theorem C6_bounded_scores (env : PyEnv) (now : String) (s : RandState) :
    (∀ row ∈ (generate_mobility_data env s).1,
       3/10 ≤ row.member_ratio ∧ row.member_ratio ≤ 95/100 ∧
       5 ≤ row.avg_trip_duration_minutes ∧ row.avg_trip_duration_minutes ≤ 30) ∧
    (∀ res, (generate_comprehensive_analysis env now s).1 = Except.ok res →
      ∀ p ∈ res.personas,
        0 ≤ p.targeting_effectiveness ∧ p.targeting_effectiveness ≤ 95/100) := by
  refine ⟨generated_mobility_bounds env s, ?_⟩
  intro res h p hp
  simp only [generate_comprehensive_analysis] at h
  cases hseg : perform_segmentation_analysis env 4 (generate_mobility_data env s).1
      (generate_spending_data env (generate_mobility_data env s).2).1 with
  | error e =>
      rw [hseg] at h
      exact Except.noConfusion h
  | ok seg =>
      rw [hseg] at h
      injection h with h'
      subst h'
      have hmem := threadFold_mem (fun pr => personaFor env pr.1 pr.2)
        seg.cluster_profiles.enum [] _ p
        (by simpa [generate_persona_insights, threadMap] using hp)
      rcases hmem with hacc | ⟨c, r', hc, rfl⟩
      · simp at hacc
      · have hprof : c.2 ∈ seg.cluster_profiles := snd_mem_of_mem_enum hc
        rw [perform_ok_profiles env 4 _ _ seg hseg] at hprof
        simp only [List.mem_map] at hprof
        obtain ⟨cid, _, hceq⟩ := hprof
        have hmr : 0 ≤ c.2.avg_member_ratio := by
          rw [← hceq]
          apply profileFor_avg_mr_nonneg
          intro cr hcr
          have hb := (generated_mobility_bounds env s cr.mob
            (combinedRows_mob_mem _ _ cr hcr)).1
          linarith
        exact personaFor_targeting_bounds env c.1 c.2 r' hmr

set_option maxRecDepth 100000 in
unseal Rat.mul Rat.inv Rat.add Rat.sub in
/-- C6 witness: the bounds evaluated on the first concretely generated
mobility row and the first persona of the concrete full run. -/
theorem C6_witness :
    (3/10 ≤ (mobility0.headD default).member_ratio ∧
     (mobility0.headD default).member_ratio ≤ 95/100 ∧
     5 ≤ (mobility0.headD default).avg_trip_duration_minutes ∧
     (mobility0.headD default).avg_trip_duration_minutes ≤ 30) ∧
    (0 ≤ (analysis0.personas.headD default).targeting_effectiveness ∧
     (analysis0.personas.headD default).targeting_effectiveness ≤ 95/100) :=
  ⟨(C6_bounded_scores env0 "t" state0).1 (mobility0.headD default) (by decide),
   (C6_bounded_scores env0 "t" state0).2 analysis0 (by decide)
     (analysis0.personas.headD default) (by decide)⟩

/-- Rounding to three decimal places moves a value by at most half of the
last decimal place. -/
lemma abs_pyRound3_sub (q : ℚ) : |pyRound 3 q - q| ≤ 1/2000 := by
  unfold pyRound
  have h10 : (0:ℚ) < 10 ^ (3:ℕ) := by positivity
  have h := abs_sub_round (q * 10 ^ (3:ℕ))
  have heq : ((round (q * 10 ^ (3:ℕ)) : ℤ) : ℚ) / 10 ^ (3:ℕ) - q =
      (((round (q * 10 ^ (3:ℕ)) : ℤ) : ℚ) - q * 10 ^ (3:ℕ)) / 10 ^ (3:ℕ) := by
    field_simp
    ring
  rw [heq, abs_div, abs_of_pos h10]
  rw [div_le_iff₀ h10]
  rw [abs_sub_comm] at h
  norm_num at h ⊢
  linarith

/-- Dividing every entry of a list by a constant divides its sum. -/
lemma sum_map_div (l : List ℚ) (T : ℚ) :
    (l.map (fun a => a / T)).sum = l.sum / T := by
  induction l with
  | nil => simp
  | cons a as ih => simp [ih, add_div]

/-- Rounding every entry of a list to three decimals moves the sum by at most
half of the last decimal place per entry. -/
lemma abs_sum_pyRound3 (l : List ℚ) :
    |(l.map (fun q => pyRound 3 q)).sum - l.sum| ≤ (l.length : ℚ) * (1/2000) := by
  induction l with
  | nil => simp
  | cons a as ih =>
      simp only [List.map_cons, List.sum_cons, List.length_cons]
      have h1 := abs_pyRound3_sub a
      have h2 : |pyRound 3 a + (as.map (fun q => pyRound 3 q)).sum - (a + as.sum)| =
          |(pyRound 3 a - a) + ((as.map (fun q => pyRound 3 q)).sum - as.sum)| := by
        ring_nf
      rw [h2]
      calc |(pyRound 3 a - a) + ((as.map (fun q => pyRound 3 q)).sum - as.sum)|
          ≤ |pyRound 3 a - a| + |(as.map (fun q => pyRound 3 q)).sum - as.sum| :=
            abs_add _ _
        _ ≤ 1/2000 + (as.length : ℚ) * (1/2000) := add_le_add h1 ih
        _ = ((as.length : ℚ) + 1) * (1/2000) := by ring
        _ = ((as.length + 1 : ℕ) : ℚ) * (1/2000) := by push_cast; ring

/-- Proportions of clamped positive amounts against their own total sum to 1
before rounding, so the rounded proportions sum to 1 up to half a thousandth
per category. -/
lemma props_sum_bound (A : List (String × ℚ)) (hA : A ≠ [])
    (h10 : ∀ p ∈ A, (10000:ℚ) ≤ p.2) :
    |((A.map (fun p => pyRound 3 (p.2 / (A.map (fun p => p.2)).sum))).sum) - 1| ≤
      (A.length : ℚ) * (1/2000) := by
  have hTpos : 0 < (A.map (fun p => p.2)).sum := by
    apply List.sum_pos
    · intro a ha
      obtain ⟨p, hp, rfl⟩ := List.mem_map.mp ha
      linarith [h10 p hp]
    · simp [hA]
  have hcomp : A.map (fun p => pyRound 3 (p.2 / (A.map (fun p => p.2)).sum)) =
      ((A.map (fun p => p.2)).map (fun a => a / (A.map (fun p => p.2)).sum)).map
        (fun q => pyRound 3 q) := by
    rw [List.map_map, List.map_map]
    rfl
  have hsum1 : ((A.map (fun p => p.2)).map
      (fun a => a / (A.map (fun p => p.2)).sum)).sum = 1 := by
    rw [sum_map_div]
    exact div_self (ne_of_gt hTpos)
  have hlen : ((A.map (fun p => p.2)).map
      (fun a => a / (A.map (fun p => p.2)).sum)).length = A.length := by
    simp
  have hfinal := abs_sum_pyRound3
    ((A.map (fun p => p.2)).map (fun a => a / (A.map (fun p => p.2)).sum))
  rw [hsum1, hlen] at hfinal
  rw [hcomp]
  exact hfinal

/-- Threaded append-one fold: the record count is the element count. -/
lemma threadFold_length {γ α : Type} (f : γ → RandState → α × RandState) :
    ∀ (l : List γ) (acc : List α) (r : RandState),
      ((l.foldl (fun acc c => (acc.1 ++ [(f c acc.2).1], (f c acc.2).2)) (acc, r)).1).length =
        acc.length + l.length := by
  intro l
  induction l with
  | nil => intro acc r; simp
  | cons c cs ih =>
      intro acc r
      simp only [List.foldl_cons]
      rw [ih]
      simp
      omega

/-- Every sampled category amount is the clamp `max 10000 _` of a draw, so it
is at least 10000, and its category label is one of the six real categories
(never the synthesized total). -/
lemma countyCategoryAmounts_mem (env : PyEnv) (county : String) (r : RandState) :
    ∀ p ∈ (countyCategoryAmounts env county r).1,
      (10000:ℚ) ≤ p.2 ∧ p.1 ≠ "total" := by
  intro p hp
  have hmem := threadFold_mem
    (fun c r => ((c, max 10000
        ((categoryBaseAmount env county c r).1 * baseMultiplier county)),
      (categoryBaseAmount env county c r).2))
    categoriesList [] r p hp
  rcases hmem with h | ⟨c, r', hc, rfl⟩
  · simp at h
  · refine ⟨le_max_left _ _, ?_⟩
    fin_cases hc <;> simp

/-- The six category amounts per county. -/
lemma countyCategoryAmounts_length (env : PyEnv) (county : String) (r : RandState) :
    ((countyCategoryAmounts env county r).1).length = 6 := by
  simp [countyCategoryAmounts, categoriesList, List.foldl_cons, List.foldl_nil]

/-- Every row a county block emits carries that county's code. -/
lemma countySpendingRows_county (env : PyEnv) (county : String) (r : RandState) :
    ∀ row ∈ (countySpendingRows env county r).1, row.county_fips = county := by
  intro row hrow
  simp only [countySpendingRows, List.mem_append, List.mem_map,
    List.mem_singleton] at hrow
  rcases hrow with ⟨p, _, rfl⟩ | rfl
  · rfl
  · rfl

/-- A county block contributes nothing to the filter for a different county. -/
lemma countyRows_filter_ne (env : PyEnv) (county' : String) (r : RandState)
    (county : String) (hne : county' ≠ county) :
    (countySpendingRows env county' r).1.filter
      (fun row => row.county_fips = county ∧ row.category ≠ "total") = [] := by
  rw [List.filter_eq_nil_iff]
  intro row hrow
  have hcf := countySpendingRows_county env county' r row hrow
  simp [hcf, hne]

/-- C2 amended, per county block: the six per-category proportions of one
county sum to 1 within 3/1000 (six roundings of half a thousandth each); the
unrounded proportions sum to exactly 1. -/
lemma countyProps_bound (env : PyEnv) (county : String) (r : RandState) :
    |(((countySpendingRows env county r).1.filter
        (fun row => row.county_fips = county ∧ row.category ≠ "total")).map
      (fun row => row.spending_proportion)).sum - 1| ≤ 3/1000 := by
  have hAmem := countyCategoryAmounts_mem env county r
  have hAlen := countyCategoryAmounts_length env county r
  have hAne : (countyCategoryAmounts env county r).1 ≠ [] := by
    intro hnil
    rw [hnil] at hAlen
    simp at hAlen
  have hfilter : (countySpendingRows env county r).1.filter
      (fun row => row.county_fips = county ∧ row.category ≠ "total") =
      ((countyCategoryAmounts env county r).1).map (fun p =>
        ({ county_fips := county
           category := p.1
           spending_amount := pyRound 0 p.2
           spending_proportion := pyRound 3
             (p.2 / (((countyCategoryAmounts env county r).1).map (fun p => p.2)).sum) } :
          SpendingRow)) := by
    simp only [countySpendingRows]
    rw [List.filter_append]
    have hcat : (((countyCategoryAmounts env county r).1).map (fun p =>
        ({ county_fips := county
           category := p.1
           spending_amount := pyRound 0 p.2
           spending_proportion := pyRound 3
             (p.2 / (((countyCategoryAmounts env county r).1).map (fun p => p.2)).sum) } :
          SpendingRow))).filter
        (fun row => row.county_fips = county ∧ row.category ≠ "total") =
        ((countyCategoryAmounts env county r).1).map (fun p =>
        ({ county_fips := county
           category := p.1
           spending_amount := pyRound 0 p.2
           spending_proportion := pyRound 3
             (p.2 / (((countyCategoryAmounts env county r).1).map (fun p => p.2)).sum) } :
          SpendingRow)) := by
      rw [List.filter_eq_self]
      intro row hrow
      obtain ⟨p, hp, rfl⟩ := List.mem_map.mp hrow
      have hne := (hAmem p hp).2
      simp [hne]
    rw [hcat]
    simp
  rw [hfilter, List.map_map]
  have hbound := props_sum_bound ((countyCategoryAmounts env county r).1) hAne
    (fun p hp => (hAmem p hp).1)
  rw [hAlen] at hbound
  have hmaps : (((countyCategoryAmounts env county r).1).map
      ((fun row => row.spending_proportion) ∘ (fun p =>
        ({ county_fips := county
           category := p.1
           spending_amount := pyRound 0 p.2
           spending_proportion := pyRound 3
             (p.2 / (((countyCategoryAmounts env county r).1).map (fun p => p.2)).sum) } :
          SpendingRow)))) =
      ((countyCategoryAmounts env county r).1).map (fun p =>
        pyRound 3 (p.2 / (((countyCategoryAmounts env county r).1).map (fun p => p.2)).sum)) :=
    rfl
  rw [hmaps]
  calc |(((countyCategoryAmounts env county r).1).map (fun p =>
        pyRound 3 (p.2 / (((countyCategoryAmounts env county r).1).map (fun p => p.2)).sum))).sum - 1|
      ≤ (6 : ℚ) * (1/2000) := hbound
    _ = 3/1000 := by norm_num

/-- Blocks that all vanish under the filter leave the accumulator alone. -/
lemma blocks_filter_nil (env : PyEnv) (p : SpendingRow → Bool)
    (l : List String)
    (hall : ∀ c ∈ l, ∀ r', ((countySpendingRows env c r').1.filter p) = []) :
    ∀ (acc : List SpendingRow) (r : RandState),
      ((l.foldl (fun acc c => (acc.1 ++ (countySpendingRows env c acc.2).1,
        (countySpendingRows env c acc.2).2)) (acc, r)).1).filter p = acc.filter p := by
  induction l with
  | nil => intro acc r; rfl
  | cons c cs ih =>
      intro acc r
      simp only [List.foldl_cons]
      rw [ih (fun c' hc' => hall c' (List.mem_cons_of_mem c hc'))]
      rw [List.filter_append, hall c (List.mem_cons_self c cs), List.append_nil]

/-- In a fold over distinct counties, the filter for one county reduces to
that county's own block, evaluated at the generator state reached when its
turn comes. -/
lemma spending_fold_filter (env : PyEnv) (county : String)
    (p : SpendingRow → Bool)
    (hp : ∀ c' r', c' ≠ county → ((countySpendingRows env c' r').1.filter p) = []) :
    ∀ (l : List String), county ∈ l → l.Nodup →
      ∀ (acc : List SpendingRow) (r : RandState), ∃ r',
        ((l.foldl (fun acc c => (acc.1 ++ (countySpendingRows env c acc.2).1,
          (countySpendingRows env c acc.2).2)) (acc, r)).1).filter p =
          acc.filter p ++ ((countySpendingRows env county r').1.filter p) := by
  intro l
  induction l with
  | nil => intro hmem; exact absurd hmem (List.not_mem_nil county)
  | cons c cs ih =>
      intro hmem hnodup acc r
      rcases List.mem_cons.mp hmem with hceq | hcs
      · subst hceq
        refine ⟨r, ?_⟩
        simp only [List.foldl_cons]
        have hnotin : county ∉ cs := (List.nodup_cons.mp hnodup).1
        rw [blocks_filter_nil env p cs
          (fun c' hc' r' => hp c' r' (fun he => hnotin (he ▸ hc')))]
        rw [List.filter_append]
      · have hcne : c ≠ county := by
          intro he
          exact (List.nodup_cons.mp hnodup).1 (he ▸ hcs)
        obtain ⟨r', hr'⟩ := ih hcs (List.nodup_cons.mp hnodup).2
          (acc ++ (countySpendingRows env c r).1) (countySpendingRows env c r).2
        refine ⟨r', ?_⟩
        simp only [List.foldl_cons]
        rw [hr', List.filter_append, hp c r hcne, List.append_nil]

/-- C2 amended. For every region of the generated spending table, the sum of
the six per-category `spending_proportion` values (excluding the synthesized
total row) equals 1 within 3/1000 — the granularity forced by the 3-decimal
rounding of each proportion; the proportions before rounding sum to exactly
1 because they are recomputed from the sampled total. -/
theorem C2_proportions_sum (env : PyEnv) (s : RandState) (county : String)
    (hc : county ∈ countiesList) :
    |((((generate_spending_data env s).1.filter
        (fun row => row.county_fips = county ∧ row.category ≠ "total")).map
      (fun row => row.spending_proportion)).sum) - 1| ≤ 3/1000 := by
  have hp : ∀ c' r', c' ≠ county →
      ((countySpendingRows env c' r').1.filter
        (fun row => row.county_fips = county ∧ row.category ≠ "total")) = [] :=
    fun c' r' hne => countyRows_filter_ne env c' r' county hne
  have hnodup : countiesList.Nodup := by decide
  obtain ⟨r', hr'⟩ := spending_fold_filter env county _ hp countiesList hc hnodup
    [] (npSeed env 42 s)
  simp only [generate_spending_data, threadFlatMap]
  rw [hr']
  simpa using countyProps_bound env county r'

set_option maxRecDepth 100000 in
unseal Rat.mul Rat.inv Rat.add Rat.sub in
/-- C2 counterexample. Under the concrete library model, the first generated
county draws identical clamped amounts (10000 in each category), each
proportion 1/6 rounds to 0.167, and the six proportions sum to 1.002, which
differs from 1 by far more than the claimed 1e-6 tolerance. -/
theorem C2_counterexample :
    ((((generate_spending_data env0 state0).1.filter
        (fun row => row.county_fips = "17031" ∧ row.category ≠ "total")).map
      (fun row => row.spending_proportion)).sum) = 1002/1000 ∧
    ¬(|(1002:ℚ)/1000 - 1| ≤ 1/1000000) := by
  constructor
  · decide
  · decide

set_option maxRecDepth 100000 in
unseal Rat.mul Rat.inv Rat.add Rat.sub in
/-- C2 witness: the amended 3/1000 bound evaluated at the first county of the
concretely generated table. -/
theorem C2_witness :
    |((((generate_spending_data env0 state0).1.filter
        (fun row => row.county_fips = "17031" ∧ row.category ≠ "total")).map
      (fun row => row.spending_proportion)).sum) - 1| ≤ 3/1000 :=
  C2_proportions_sum env0 state0 "17031" (by decide)

end UrbanPulse
